import Mathlib

/-!
# Verification of the movie recommendation system

A shallow embedding of `movie_recommendation_system.py` (pandas/sklearn
user-based collaborative filtering) together with proofs about its
specification.

Modelling conventions:
* Python floats are modelled exactly: rating values and their arithmetic
  (sums, means) are rationals `ℚ`; cosine similarity, which involves a
  square root, lives in `ℝ`.
* pandas `Series` objects are modelled as association lists
  `List (index × value)`.
* `Series.sort_values(ascending=False)` is modelled as an ascending stable
  sort followed by a reversal: pandas (`core/sorting.py, nargsort`) computes
  an ascending `argsort` of the values and reverses the resulting indexer
  when `ascending=False`.  numpy's `argsort` with the default `quicksort`
  kind runs a plain insertion sort (which is stable) on arrays of at most
  15 elements, so for small inputs the ascending pass is exactly a stable
  sort; the concrete inputs evaluated below are all of that size.
* Fallible operations return an `Option` / a result inductive instead of
  raising exceptions.
-/

/-- A row of `movies.csv`. -/
structure Movie where
  movieId : Int
  title : String
  genres : String
deriving DecidableEq, Repr

/-- A row of `ratings.csv`. -/
structure Rating where
  userId : Int
  movieId : Int
  rating : ℚ
deriving DecidableEq, Repr

/-- A row of the joined table `df = pd.merge(ratings, movies, on='movieId')`. -/
structure DfRow where
  userId : Int
  movieId : Int
  rating : ℚ
  title : String
  genres : String
deriving DecidableEq, Repr

/-- The user-item matrix produced by `pivot_table`: row labels `users`
(distinct userIds), column labels `titles` (distinct movie titles), and the
rating rows themselves (`fill_value` handling puts `0` for absent ratings). -/
structure UIMatrix where
  users : List Int
  titles : List String
  rows : List (List ℚ)
deriving DecidableEq, Repr

/-- Well-formedness of a pivoted matrix: distinct row labels, distinct
column labels, one rating row per user. -/
def WFMatrix (M : UIMatrix) : Prop :=
  M.users.Nodup ∧ M.titles.Nodup ∧ M.rows.length = M.users.length

instance (M : UIMatrix) : Decidable (WFMatrix M) := by
  unfold WFMatrix; infer_instance

/-- The rating row of user `u` (`user_item_matrix.loc[user_id]`). -/
def rowOf (M : UIMatrix) (u : Int) : List ℚ :=
  M.rows.getD (M.users.indexOf u) []

/-- The matrix entry for user `v` and movie title `t`
(`user_item_matrix.loc[v][t]`); `0` outside the matrix. -/
def entryByUser (M : UIMatrix) (v : Int) (t : String) : ℚ :=
  (rowOf M v).getD (M.titles.indexOf t) 0

/-- Dot product of two rating vectors (`numpy` dot on dense rows). -/
def dot (v w : List ℚ) : ℚ :=
  (List.zipWith (· * ·) v w).sum

/-- Squared Euclidean norm of a rating vector. -/
def normSq (v : List ℚ) : ℚ := dot v v

/-- Cosine similarity of two rating vectors, as computed by
`sklearn.metrics.pairwise.cosine_similarity`: `dot v w / (‖v‖ * ‖w‖)`, with
sklearn's convention that a zero-norm vector is left unnormalised, which
makes every similarity involving it equal to `0`. -/
noncomputable def cosineSim (v w : List ℚ) : ℝ :=
  if normSq v = 0 ∨ normSq w = 0 then 0
  else (dot v w : ℝ) / (Real.sqrt (normSq v) * Real.sqrt (normSq w))

/-- Entry `(i, j)` of `cosine_similarity(user_item_matrix)`. -/
noncomputable def simMatrix (M : UIMatrix) (i j : ℕ) : ℝ :=
  cosineSim (M.rows.getD i []) (M.rows.getD j [])

/-- The ascending comparison on (index, value) pairs used by the sort model. -/
def valLE {ι α : Type _} [LE α] (p q : ι × α) : Prop := p.2 ≤ q.2

instance {ι α : Type _} [LE α] [DecidableRel ((· ≤ ·) : α → α → Prop)] :
    DecidableRel (valLE (ι := ι) (α := α)) :=
  fun p q => inferInstanceAs (Decidable (p.2 ≤ q.2))

/-- `series.sort_values(ascending=False)`: pandas performs an ascending
(stable, for the array sizes at issue) argsort and reverses the indexer. -/
def sortValuesDesc {ι α : Type _} [LinearOrder α] (l : List (ι × α)) :
    List (ι × α) :=
  (List.insertionSort valLE l).reverse

/-- The target user's column of the similarity DataFrame
(`user_similarity_df[user_id]`): for each user `i` of the matrix, in row
order, the cosine similarity of `i`'s rating row with the target's. -/
noncomputable def simSeries (M : UIMatrix) (u : Int) : List (Int × ℝ) :=
  M.users.zip (M.rows.map (fun r => cosineSim r (rowOf M u)))

/-- `user_similarity_df[user_id].sort_values(ascending=False).drop(user_id).head(10)`:
the top-10 similar users kept with their similarity scores. -/
noncomputable def similarUsers (M : UIMatrix) (u : Int) : List (Int × ℝ) :=
  ((sortValuesDesc (simSeries M u)).filter (fun p => decide (p.1 ≠ u))).take 10

/-- Column indices of the movies the target user has not rated
(`user_item_matrix.loc[user_id] == 0` mask over the columns). -/
def unseenIdx (M : UIMatrix) (u : Int) : List ℕ :=
  (List.range M.titles.length).filter (fun j => decide ((rowOf M u).getD j 0 = 0))

/-- `recommendable_movies.mean(axis=0)`: for each unseen movie column, the
unweighted arithmetic mean of the similar users' entries in that column
(zero entries included), as a Series in matrix column order. -/
noncomputable def recommendationScores (M : UIMatrix) (u : Int) :
    List (String × ℚ) :=
  let selRows := (similarUsers M u).map (fun p => rowOf M p.1)
  (unseenIdx M u).map
    (fun j => (M.titles.getD j "", (selRows.map (fun r => r.getD j 0)).sum / selRows.length))

/-- `recommendation_scores.sort_values(ascending=False).head(10)`. -/
noncomputable def topRecommendations (M : UIMatrix) (u : Int) :
    List (String × ℚ) :=
  (sortValuesDesc (recommendationScores M u)).take 10

/-- Attach the genre to each recommended title:
`movies_df[movies_df['title'] == title].iloc[0]['genres']`, the first joined
row with a matching title.  `none` models the `IndexError` that `iloc[0]`
raises on an empty selection. -/
def attachGenres (df : List DfRow) :
    List (String × ℚ) → Option (List (String × String × ℚ))
  | [] => some []
  | p :: rest =>
    match df.find? (fun row => row.title == p.1), attachGenres df rest with
    | some row, some out => some ((p.1, row.genres, p.2) :: out)
    | _, _ => none

/-- Possible outcomes of `get_recommendations`. -/
inductive RecResult where
  /-- `❌ Error: User ID {user_id} not found.` -/
  | userNotFound (u : Int) : RecResult
  /-- `Could not find any similar users.` (informational empty result) -/
  | emptyNeighborhood : RecResult
  /-- the `IndexError` a failing `.iloc[0]` genre lookup would raise -/
  | lookupError : RecResult
  /-- the printed top similar users and the printed recommendation triples
  `(title, genres, score)` -/
  | ok (similars : List (Int × ℝ)) (recs : List (String × String × ℚ)) : RecResult

/-- Shallow embedding of `get_recommendations(user_id, user_item_matrix, movies_df)`. -/
noncomputable def get_recommendations (u : Int) (M : UIMatrix)
    (df : List DfRow) : RecResult :=
  if u ∉ M.users then .userNotFound u
  else
    let sims := similarUsers M u
    if sims = [] then .emptyNeighborhood
    else
      match attachGenres df (topRecommendations M u) with
      | none => .lookupError
      | some recs => .ok sims recs

/-- `pd.merge(ratings, movies, on='movieId')`: inner join, preserving the
order of the left (ratings) rows, and for each of them the order of its
matches in the movie table. -/
def mergeDf (ratings : List Rating) (movies : List Movie) : List DfRow :=
  (ratings.map (fun r =>
    (movies.filter (fun m => m.movieId == r.movieId)).map
      (fun m => ⟨r.userId, r.movieId, r.rating, m.title, m.genres⟩))).flatten

/-- One cell of the pivot table: `pivot_table` aggregates duplicate
(user, title) pairs with its default `mean` aggregation, and `.fillna(0)`
turns the absent combinations into `0`. -/
def cellValue (df : List DfRow) (u : Int) (t : String) : ℚ :=
  let rs := (df.filter (fun r => r.userId == u && r.title == t)).map (·.rating)
  if rs = [] then 0 else rs.sum / rs.length

/-- Shallow embedding of `create_user_item_matrix(ratings, movies)`:
returns the pivoted user-item matrix together with the joined table.
`pivot_table` sorts the distinct row and column labels ascending. -/
def create_user_item_matrix (ratings : List Rating) (movies : List Movie) :
    UIMatrix × List DfRow :=
  let df := mergeDf ratings movies
  let users := List.insertionSort (· ≤ ·) (df.map (·.userId)).dedup
  let titles := List.insertionSort (· ≤ ·) (df.map (·.title)).dedup
  (⟨users, titles, users.map (fun u => titles.map (fun t => cellValue df u t))⟩, df)

/-- Accumulate further digits of a Python integer literal body: after an
initial digit, Python's `int` accepts further digits with single
underscores allowed strictly between digits. -/
def pyDigitsAux : ℕ → List Char → Option ℕ
  | acc, [] => some acc
  | acc, '_' :: c :: cs =>
    if c.isDigit then pyDigitsAux (acc * 10 + (c.toNat - 48)) cs else none
  | _, ['_'] => none
  | acc, c :: cs =>
    if c.isDigit then pyDigitsAux (acc * 10 + (c.toNat - 48)) cs else none

/-- The unsigned body of a Python integer literal: a leading digit followed
by digits and well-placed underscores. -/
def pyDigits : List Char → Option ℕ
  | [] => none
  | c :: cs => if c.isDigit then pyDigitsAux (c.toNat - 48) cs else none

/-- `str.lower()` on the characters of an input line (ASCII case folding,
which covers this console interaction). -/
def strLower (s : String) : String :=
  ⟨s.data.map Char.toLower⟩

/-- `str.strip()`-style whitespace trimming on a character list. -/
def trimChars (cs : List Char) : List Char :=
  ((cs.dropWhile Char.isWhitespace).reverse.dropWhile Char.isWhitespace).reverse

/-- `int(s)` for a user-entered string: surrounding whitespace is stripped,
an optional sign precedes the digits; `none` models the `ValueError` raised
otherwise.  (Python additionally accepts non-ASCII decimal digits, which do
not occur in this console interaction.) -/
def parsePyInt (s : String) : Option Int :=
  match trimChars s.data with
  | '+' :: rest => (pyDigits rest).map Int.ofNat
  | '-' :: rest => (pyDigits rest).map (fun n => -(n : Int))
  | cs => (pyDigits cs).map Int.ofNat

/-- One console interaction of the `while True` loop in `main`. -/
inductive LoopEvent where
  /-- `❌ Invalid input. Please enter a number.` (the `ValueError` branch) -/
  | invalidInput : LoopEvent
  /-- a completed call of `get_recommendations` with its outcome -/
  | result (r : RecResult) : LoopEvent
  /-- `An unexpected error occurred: ...` (the generic `except Exception`
  branch; in particular it catches the `EOFError` that `input()` raises at
  end-of-input, after which the loop continues) -/
  | unexpectedError : LoopEvent

/-- The query loop of `main`, run on a finite list of console input lines
with a fuel bound on the number of iterations.  Returns the events of the
executed iterations and whether the loop reached its clean `break`
termination within the fuel.  An exhausted input list makes `input()` raise
`EOFError`, which the catch-all swallows, so the loop keeps iterating. -/
noncomputable def runLoop (M : UIMatrix) (df : List DfRow) :
    ℕ → List String → List LoopEvent × Bool
  | 0, _ => ([], false)
  | n + 1, [] =>
    let res := runLoop M df n []
    (LoopEvent.unexpectedError :: res.1, res.2)
  | n + 1, s :: rest =>
    if strLower s = "exit" then ([], true)
    else
      let ev := match parsePyInt s with
        | none => LoopEvent.invalidInput
        | some k => LoopEvent.result (get_recommendations k M df)
      let res := runLoop M df n rest
      (ev :: res.1, res.2)

/-- The read-only tables `main` passes to every `get_recommendations`
call. -/
structure Tables where
  matrix : UIMatrix
  df : List DfRow

/-- `get_recommendations` with the caller's tables threaded through
explicitly: the function body only reads the matrix and the joined table
(every pandas operation it uses returns a fresh object), so the state it
hands back is the state it received. -/
noncomputable def get_recommendations_run (u : Int) (st : Tables) :
    RecResult × Tables :=
  (get_recommendations u st.matrix st.df, st)

instance {ι α : Type _} [Preorder α] : IsTrans (ι × α) valLE :=
  ⟨fun _ _ _ h1 h2 => le_trans h1 h2⟩

instance {ι α : Type _} [LinearOrder α] : IsTotal (ι × α) valLE :=
  ⟨fun p q => le_total p.2 q.2⟩

/-- Three users with identical rating rows: every pairwise similarity is 1,
so the similar-user selection is decided purely by tie-breaking. -/
def M1 : UIMatrix :=
  ⟨[1, 2, 3], ["A", "B", "C"], [[1, 0, 0], [1, 0, 0], [1, 0, 0]]⟩

def df1 : List DfRow :=
  [⟨1, 101, 1, "A", "gA"⟩, ⟨2, 102, 5, "B", "gB"⟩, ⟨3, 103, 5, "C", "gC"⟩]

/-- Two users where the only neighbor of user 1 has rated nothing (an
all-zero rating row). -/
def M2 : UIMatrix := ⟨[1, 2], ["A", "B"], [[1, 0], [0, 0]]⟩

def df2 : List DfRow := [⟨1, 201, 1, "A", "gA"⟩, ⟨2, 202, 3, "B", "gB"⟩]

/-- A single-user matrix: after dropping the self-similarity there is no
similar user left. -/
def M3 : UIMatrix := ⟨[7], ["A"], [[1]]⟩

/-- Descending comparison on (index, value) pairs, used to state the
specification's own sort (stable descending: ties keep original order). -/
def valGE {ι α : Type _} [LE α] (p q : ι × α) : Prop := q.2 ≤ p.2

instance {ι α : Type _} [LE α] [DecidableRel ((· ≤ ·) : α → α → Prop)] :
    DecidableRel (valGE (ι := ι) (α := α)) :=
  fun p q => inferInstanceAs (Decidable (q.2 ≤ p.2))

/-- Modelled from the spec (for refinement comparison): "From the target
user's similarity row, exclude the self-similarity entry, sort remaining
users descending by similarity score, and take the top 10 ... Ties broken
by original row order (stable sort)." -/
noncomputable def similarUsersSpec (M : UIMatrix) (u : Int) : List (Int × ℝ) :=
  (List.insertionSort valGE
    ((simSeries M u).filter (fun p => decide (p.1 ≠ u)))).take 10

theorem dot_comm (v w : List ℚ) : dot v w = dot w v := by
  unfold dot
  induction v generalizing w with
  | nil => cases w <;> simp
  | cons a v ih =>
    cases w with
    | nil => simp
    | cons b w => simp [ih, mul_comm]

theorem normSq_nonneg (v : List ℚ) : 0 ≤ normSq v := by
  unfold normSq dot
  induction v with
  | nil => simp
  | cons a v ih =>
    simp only [List.zipWith_cons_cons, List.sum_cons]
    exact add_nonneg (mul_self_nonneg a) ih

theorem mem_sortValuesDesc {ι α : Type _} [LinearOrder α]
    {l : List (ι × α)} {x : ι × α} : x ∈ sortValuesDesc l ↔ x ∈ l := by
  unfold sortValuesDesc
  rw [List.mem_reverse, List.mem_insertionSort]

theorem sorted_sortValuesDesc {ι α : Type _} [LinearOrder α]
    (l : List (ι × α)) : (sortValuesDesc l).Pairwise (fun p q => q.2 ≤ p.2) := by
  unfold sortValuesDesc
  rw [List.pairwise_reverse]
  exact List.sorted_insertionSort valLE l

/-- Stability of the sort model, reversed: a tie that appears as the
(earlier, later) pair `[p, q]` in the series appears as `[q, p]` in the
descending output. -/
theorem sortValuesDesc_tie_reversed {ι α : Type _} [LinearOrder α]
    {l : List (ι × α)} {p q : ι × α} (heq : p.2 = q.2)
    (hsub : List.Sublist [p, q] l) :
    List.Sublist [q, p] (sortValuesDesc l) := by
  unfold sortValuesDesc
  have h1 : List.Sublist [p, q] (List.insertionSort valLE l) :=
    List.pair_sublist_insertionSort (le_of_eq heq) hsub
  simpa using h1.reverse

/-- `attachGenres` only decorates: dropping the genres gives back the input
series (same titles, same scores, same order, same length). -/
theorem attachGenres_proj {df : List DfRow} :
    ∀ {l : List (String × ℚ)} {out : List (String × String × ℚ)},
      attachGenres df l = some out → out.map (fun x => (x.1, x.2.2)) = l := by
  intro l
  induction l with
  | nil =>
    intro out h
    simp only [attachGenres, Option.some.injEq] at h
    simp [← h]
  | cons p rest ih =>
    intro out h
    simp only [attachGenres] at h
    cases hf : df.find? (fun row => row.title == p.1) with
    | none => rw [hf] at h; exact absurd h (by simp)
    | some row =>
      rw [hf] at h
      cases hr : attachGenres df rest with
      | none => rw [hr] at h; exact absurd h (by simp)
      | some out' =>
        rw [hr] at h
        simp only [Option.some.injEq] at h
        subst h
        simp [ih hr]

theorem attachGenres_isSome {df : List DfRow} :
    ∀ {l : List (String × ℚ)},
      (∀ p ∈ l, ∃ row ∈ df, row.title = p.1) → (attachGenres df l).isSome := by
  intro l
  induction l with
  | nil => intro _; simp [attachGenres]
  | cons p rest ih =>
    intro h
    have hp : (df.find? (fun row => row.title == p.1)).isSome := by
      rw [List.find?_isSome]
      obtain ⟨row, hrow, ht⟩ := h p (by simp)
      exact ⟨row, hrow, by simp [ht]⟩
    obtain ⟨row, hrow⟩ := Option.isSome_iff_exists.mp hp
    have hr : (attachGenres df rest).isSome :=
      ih (fun q hq => h q (by simp [hq]))
    obtain ⟨out, hout⟩ := Option.isSome_iff_exists.mp hr
    simp [attachGenres, hrow, hout]

/-- Unfolding `get_recommendations` at an `ok` result. -/
theorem get_recommendations_ok_elim {u : Int} {M : UIMatrix} {df : List DfRow}
    {sims : List (Int × ℝ)} {recs : List (String × String × ℚ)}
    (h : get_recommendations u M df = .ok sims recs) :
    sims = similarUsers M u ∧
      attachGenres df (topRecommendations M u) = some recs := by
  unfold get_recommendations at h
  by_cases hu : u ∈ M.users
  · simp only [hu, not_true_eq_false, if_false] at h
    by_cases hs : similarUsers M u = []
    · simp [hs] at h
    · simp only [hs, if_false] at h
      cases hg : attachGenres df (topRecommendations M u) with
      | none => rw [hg] at h; exact absurd h (by simp)
      | some out =>
        rw [hg] at h
        simp only [RecResult.ok.injEq] at h
        exact ⟨h.1.symm, congrArg some h.2⟩

  · simp [hu] at h

theorem mem_unseenIdx {M : UIMatrix} {u : Int} {j : ℕ} :
    j ∈ unseenIdx M u ↔ j < M.titles.length ∧ (rowOf M u).getD j 0 = 0 := by
  unfold unseenIdx
  simp [List.mem_filter, List.mem_range]

/-- Every entry of the sorted-truncated score series is the mean, over the
selected similar users' rows, of an unseen movie column. -/
theorem mem_topRecommendations {M : UIMatrix} {u : Int} {x : String × ℚ}
    (h : x ∈ topRecommendations M u) :
    ∃ j ∈ unseenIdx M u, x =
      (M.titles.getD j "",
        (((similarUsers M u).map (fun p => rowOf M p.1)).map
            (fun r => r.getD j 0)).sum /
          (((similarUsers M u).map (fun p => rowOf M p.1)).length : ℚ)) := by
  unfold topRecommendations at h
  have h1 : x ∈ sortValuesDesc (recommendationScores M u) :=
    (List.take_sublist _ _).subset h
  have h2 : x ∈ recommendationScores M u := mem_sortValuesDesc.mp h1
  unfold recommendationScores at h2
  simp only [List.mem_map] at h2
  obtain ⟨j, hj, hx⟩ := h2
  exact ⟨j, hj, hx.symm⟩

/-- With distinct column labels, looking an unseen column's title back up
in the matrix returns that column. -/
theorem entryByUser_getD {M : UIMatrix} {v : Int} {j : ℕ}
    (hnd : M.titles.Nodup) (hj : j < M.titles.length) :
    entryByUser M v (M.titles.getD j "") = (rowOf M v).getD j 0 := by
  unfold entryByUser
  rw [List.getD_eq_getElem M.titles "" hj, List.indexOf_getElem hnd j hj]

theorem fst_mem_simSeries {M : UIMatrix} {u : Int} {p : Int × ℝ}
    (h : p ∈ simSeries M u) : p.1 ∈ M.users := by
  unfold simSeries at h
  obtain ⟨p1, p2⟩ := p
  exact (List.of_mem_zip h).1

theorem mem_simSeries_of_user {M : UIMatrix} {u v : Int}
    (hlen : M.rows.length = M.users.length) (hv : v ∈ M.users) :
    ∃ s, (v, s) ∈ simSeries M u := by
  obtain ⟨k, hk, hget⟩ := List.mem_iff_getElem.mp hv
  refine ⟨cosineSim (M.rows.get ⟨k, by omega⟩) (rowOf M u), ?_⟩
  unfold simSeries
  rw [List.mem_iff_getElem]
  refine ⟨k, ?_, ?_⟩
  · simp [List.length_zip, hlen, hk]
  · rw [List.getElem_zip]
    simp [hget]

theorem cosineSim_of_normSq_one {v w : List ℚ} (h1 : normSq v = 1)
    (h2 : normSq w = 1) : cosineSim v w = (dot v w : ℝ) := by
  unfold cosineSim
  rw [if_neg (by simp [h1, h2])]
  rw [h1, h2]
  norm_num

theorem cosineSim_zero_left {v w : List ℚ} (h : normSq v = 0) :
    cosineSim v w = 0 := by
  unfold cosineSim
  rw [if_pos (Or.inl h)]

theorem simSeries_M1 : simSeries M1 1 = [(1, 1), (2, 1), (3, 1)] := by
  have hc : cosineSim [1, 0, 0] [1, 0, 0] = 1 := by
    rw [cosineSim_of_normSq_one (by norm_num [normSq, dot]) (by norm_num [normSq, dot])]
    norm_num [dot]
  simp [simSeries, M1, rowOf, hc]

theorem similarUsers_M1 : similarUsers M1 1 = [(3, 1), (2, 1)] := by
  unfold similarUsers
  rw [simSeries_M1]
  norm_num [sortValuesDesc, List.insertionSort, List.orderedInsert, valLE,
    List.filter]

theorem recommendationScores_M1 :
    recommendationScores M1 1 = [("B", 0), ("C", 0)] := by
  unfold recommendationScores
  rw [similarUsers_M1]
  norm_num [unseenIdx, rowOf, M1, List.range, List.range.loop, List.filter]

theorem topRecommendations_M1 :
    topRecommendations M1 1 = [("C", 0), ("B", 0)] := by
  unfold topRecommendations
  rw [recommendationScores_M1]
  norm_num [sortValuesDesc, List.insertionSort, List.orderedInsert, valLE]

theorem get_recommendations_M1 :
    get_recommendations 1 M1 df1 =
      .ok [(3, 1), (2, 1)] [("C", "gC", 0), ("B", "gB", 0)] := by
  unfold get_recommendations
  rw [similarUsers_M1, topRecommendations_M1]
  simp +decide [M1, df1, attachGenres, List.find?]

theorem simSeries_M2 : simSeries M2 1 = [(1, 1), (2, 0)] := by
  have hc1 : cosineSim [1, 0] [1, 0] = 1 := by
    rw [cosineSim_of_normSq_one (by norm_num [normSq, dot]) (by norm_num [normSq, dot])]
    norm_num [dot]
  have hc2 : cosineSim [0, 0] ((1 : ℚ) :: [0]) = 0 :=
    cosineSim_zero_left (by norm_num [normSq, dot])
  simp [simSeries, M2, rowOf, hc1, hc2]

theorem similarUsers_M2 : similarUsers M2 1 = [(2, 0)] := by
  unfold similarUsers
  rw [simSeries_M2]
  norm_num [sortValuesDesc, List.insertionSort, List.orderedInsert, valLE,
    List.filter]

theorem get_recommendations_M2 :
    get_recommendations 1 M2 df2 = .ok [(2, 0)] [("B", "gB", 0)] := by
  have hscores : recommendationScores M2 1 = [("B", 0)] := by
    unfold recommendationScores
    rw [similarUsers_M2]
    norm_num [unseenIdx, rowOf, M2, List.range, List.range.loop, List.filter]
  have htop : topRecommendations M2 1 = [("B", 0)] := by
    unfold topRecommendations
    rw [hscores]
    norm_num [sortValuesDesc, List.insertionSort, List.orderedInsert, valLE]
  unfold get_recommendations
  rw [similarUsers_M2, htop]
  simp +decide [M2, df2, attachGenres, List.find?]

theorem similarUsers_M3 : similarUsers M3 7 = [] := by
  have hc : cosineSim [1] [1] = 1 := by
    rw [cosineSim_of_normSq_one (by norm_num [normSq, dot]) (by norm_num [normSq, dot])]
    norm_num [dot]
  unfold similarUsers
  have hs : simSeries M3 7 = [(7, 1)] := by simp [simSeries, M3, rowOf, hc]
  rw [hs]
  norm_num [sortValuesDesc, List.insertionSort, List.orderedInsert, valLE,
    List.filter]

theorem get_recommendations_M3 :
    get_recommendations 7 M3 [] = .emptyNeighborhood := by
  unfold get_recommendations
  rw [similarUsers_M3]
  simp +decide [M3]

/-- With no pending console input, every iteration of the loop hits the
`EOFError`-swallowing catch-all and the clean `break` is never reached. -/
theorem runLoop_nil (M : UIMatrix) (df : List DfRow) :
    ∀ n, runLoop M df n [] = (List.replicate n LoopEvent.unexpectedError, false) := by
  intro n
  induction n with
  | zero => rfl
  | succ n ih => simp [runLoop, ih, List.replicate]

theorem getD_replicate_zero (n j : ℕ) :
    (List.replicate n (0 : ℚ)).getD j 0 = 0 := by
  by_cases h : j < n
  · rw [List.getD_eq_getElem _ _ (by simpa using h)]
    exact List.getElem_replicate _ _
  · exact List.getD_eq_default _ _ (by simpa using Nat.le_of_not_lt h)

/-- Every selected similar user is a user of the matrix other than the
target. -/
theorem mem_similarUsers_fst {M : UIMatrix} {u : Int} {p : Int × ℝ}
    (h : p ∈ similarUsers M u) : p.1 ∈ M.users ∧ p.1 ≠ u := by
  unfold similarUsers at h
  have h1 := (List.take_sublist _ _).subset h
  have h2 := List.mem_filter.mp h1
  refine ⟨fst_mem_simSeries (mem_sortValuesDesc.mp h2.1), ?_⟩
  simpa using h2.2

theorem nodup_all_eq {l : List Int} {u : Int} (hnd : l.Nodup) (hu : u ∈ l)
    (hall : ∀ v ∈ l, v = u) : l = [u] := by
  cases l with
  | nil => simp at hu
  | cons a rest =>
    have ha : a = u := hall a (by simp)
    subst ha
    have hrest : rest = [] := by
      rw [List.eq_nil_iff_forall_not_mem]
      intro x hx
      have hx' : x = a := hall x (by simp [hx])
      subst hx'
      exact (List.nodup_cons.mp hnd).1 hx
    rw [hrest]

/-- C7: the similarity matrix computed inside `get_recommendations` is
symmetric, each user's self-similarity is 1 when the rating row has nonzero
norm, and a zero-norm row yields similarity 0 (sklearn's convention).  The
Python computation uses floats; the model computes the same formulas
exactly over `ℝ`. -/
theorem similarity_symmetric_and_self_one (M : UIMatrix) :
    (∀ i j, simMatrix M i j = simMatrix M j i) ∧
    (∀ i, normSq (M.rows.getD i []) ≠ 0 → simMatrix M i i = 1) ∧
    (∀ i, normSq (M.rows.getD i []) = 0 → simMatrix M i i = 0) := by
  refine ⟨?_, ?_, ?_⟩
  · intro i j
    unfold simMatrix cosineSim
    by_cases h : normSq (M.rows.getD i []) = 0 ∨ normSq (M.rows.getD j []) = 0
    · rw [if_pos h, if_pos h.symm]
    · rw [if_neg h, if_neg (fun hc => h hc.symm)]
      rw [dot_comm, mul_comm]
  · intro i h
    unfold simMatrix cosineSim
    rw [if_neg (by simpa using h)]
    have hsq : Real.sqrt (normSq (M.rows.getD i [])) *
        Real.sqrt (normSq (M.rows.getD i [])) =
        ((normSq (M.rows.getD i []) : ℚ) : ℝ) :=
      Real.mul_self_sqrt (by exact_mod_cast normSq_nonneg _)
    rw [hsq]
    have : ((normSq (M.rows.getD i []) : ℚ) : ℝ) ≠ 0 := by exact_mod_cast h
    exact div_self this
  · intro i h
    unfold simMatrix cosineSim
    rw [if_pos (Or.inl h)]

/-- C7 witness: on the concrete matrix `M2`, symmetry at (0, 1), self
similarity 1 at the nonzero row 0 and 0 at the zero row 1. -/
theorem similarity_symmetric_and_self_one_witness :
    simMatrix M2 0 1 = simMatrix M2 1 0 ∧
    simMatrix M2 0 0 = 1 ∧ simMatrix M2 1 1 = 0 :=
  ⟨(similarity_symmetric_and_self_one M2).1 0 1,
    (similarity_symmetric_and_self_one M2).2.1 0 (by norm_num [M2, normSq, dot]),
    (similarity_symmetric_and_self_one M2).2.2 1 (by norm_num [M2, normSq, dot])⟩

/-- C9: `get_recommendations` is deterministic and mutates nothing: the
embedding threads the caller's tables through explicitly, two calls on
equal inputs are equal, and the state handed back is the state received
(the body only reads the matrix and the joined table; every pandas
operation it invokes returns a fresh object). -/
theorem get_recommendations_deterministic_pure (u u' : Int)
    (st st' : Tables) (h1 : u = u') (h2 : st = st') :
    get_recommendations_run u st = get_recommendations_run u' st' ∧
    (get_recommendations_run u st).2 = st := by
  subst h1
  subst h2
  exact ⟨rfl, rfl⟩

/-- C9 witness at the concrete query (user 1, tables `M1`/`df1`). -/
theorem get_recommendations_deterministic_pure_witness :
    get_recommendations_run 1 ⟨M1, df1⟩ = get_recommendations_run 1 ⟨M1, df1⟩ ∧
    (get_recommendations_run 1 ⟨M1, df1⟩).2 = ⟨M1, df1⟩ :=
  get_recommendations_deterministic_pure 1 1 ⟨M1, df1⟩ ⟨M1, df1⟩ rfl rfl

/-- C4: a user id absent from the matrix rows makes `get_recommendations`
return the `UserNotFound` report without producing recommendations, and the
query loop records the report and moves on to the next prompt (the process
does not crash). -/
theorem user_not_found_reported (u : Int) (M : UIMatrix) (df : List DfRow)
    (h : u ∉ M.users) :
    get_recommendations u M df = .userNotFound u ∧
    ∀ n (s : String) rest, strLower s ≠ "exit" → parsePyInt s = some u →
      runLoop M df (n + 1) (s :: rest) =
        (LoopEvent.result (RecResult.userNotFound u) :: (runLoop M df n rest).1,
          (runLoop M df n rest).2) := by
  have hmain : get_recommendations u M df = .userNotFound u := by
    unfold get_recommendations
    rw [if_pos h]
  refine ⟨hmain, ?_⟩
  intro n s rest hexit hparse
  simp [runLoop, hexit, hparse, hmain]

/-- C4 witness: user 99 is not in `M1`; querying it reports `UserNotFound`
and the loop carries on. -/
theorem user_not_found_reported_witness :
    get_recommendations 99 M1 df1 = .userNotFound 99 ∧
    runLoop M1 df1 1 ["99"] =
      ([LoopEvent.result (RecResult.userNotFound 99)], false) := by
  refine ⟨(user_not_found_reported 99 M1 df1 (by decide)).1, ?_⟩
  have h := (user_not_found_reported 99 M1 df1 (by decide)).2 0 "99" []
    (by decide) (by decide)
  simpa [runLoop] using h

theorem create_titles_subset {ratings : List Rating} {movies : List Movie}
    {t : String} (h : t ∈ (create_user_item_matrix ratings movies).1.titles) :
    ∃ row ∈ (create_user_item_matrix ratings movies).2, row.title = t := by
  unfold create_user_item_matrix at h ⊢
  simp only at h ⊢
  rw [List.mem_insertionSort, List.mem_dedup, List.mem_map] at h
  obtain ⟨row, hrow, ht⟩ := h
  exact ⟨row, hrow, ht⟩

/-- C10: every title the recommender selects is a column of the pivoted
matrix, and the pivot columns are exactly the distinct titles of the joined
table, so the first-match genre lookup (`.iloc[0]` on the rows filtered by
title) always finds a row: on tables produced by
`create_user_item_matrix`, `get_recommendations` can never end in the
lookup failure. -/
theorem genre_lookup_never_fails (ratings : List Rating)
    (movies : List Movie) (u : Int) :
    get_recommendations u (create_user_item_matrix ratings movies).1
      (create_user_item_matrix ratings movies).2 ≠ RecResult.lookupError := by
  intro hcontra
  unfold get_recommendations at hcontra
  by_cases hu : u ∈ (create_user_item_matrix ratings movies).1.users
  · simp only [hu, not_true_eq_false, if_false] at hcontra
    by_cases hs :
        similarUsers (create_user_item_matrix ratings movies).1 u = []
    · simp [hs] at hcontra
    · simp only [hs, if_false] at hcontra
      have hsome : (attachGenres (create_user_item_matrix ratings movies).2
          (topRecommendations (create_user_item_matrix ratings movies).1
            u)).isSome := by
        apply attachGenres_isSome
        intro p hp
        obtain ⟨j, hj, hx⟩ := mem_topRecommendations hp
        have hjlen := (mem_unseenIdx.mp hj).1
        apply create_titles_subset
        rw [hx]
        simp only
        rw [List.getD_eq_getElem _ _ hjlen]
        exact List.getElem_mem hjlen
      obtain ⟨out, hout⟩ := Option.isSome_iff_exists.mp hsome
      rw [hout] at hcontra
      exact absurd hcontra (by simp)
  · simp [hu] at hcontra

/-- C1: every score in the returned recommendation list is the unweighted
arithmetic mean of that movie's matrix column over exactly the selected
top-10 similar users, zero entries included — the similarity magnitudes are
not used as weights. -/
theorem score_is_unweighted_neighbor_mean (u : Int) (M : UIMatrix)
    (df : List DfRow) (sims : List (Int × ℝ))
    (recs : List (String × String × ℚ)) (hnd : M.titles.Nodup)
    (hok : get_recommendations u M df = .ok sims recs) :
    ∀ x ∈ recs,
      x.2.2 = (sims.map (fun p => entryByUser M p.1 x.1)).sum /
        (sims.length : ℚ) := by
  obtain ⟨hsims, hg⟩ := get_recommendations_ok_elim hok
  intro x hx
  have hproj := attachGenres_proj hg
  have hmem : (x.1, x.2.2) ∈ topRecommendations M u := by
    rw [← hproj]
    exact List.mem_map_of_mem _ hx
  obtain ⟨j, hj, hxx⟩ := mem_topRecommendations hmem
  have hjlen := (mem_unseenIdx.mp hj).1
  have ht : x.1 = M.titles.getD j "" := congrArg Prod.fst hxx
  have hsc := congrArg Prod.snd hxx
  simp only at hsc
  rw [hsc, ht, hsims]
  rw [List.map_map, List.length_map]
  congr 1
  apply congrArg List.sum
  apply List.map_congr_left
  intro p _
  simp only [Function.comp]
  exact (entryByUser_getD hnd hjlen).symm

/-- C1 witness: on `M1` the recommended movie "C" scores
`(0 + 0) / 2 = 0`, the unweighted mean over the two selected neighbors. -/
theorem score_is_unweighted_neighbor_mean_witness :
    (0 : ℚ) = (([(3, 1), (2, 1)] : List (Int × ℝ)).map
        (fun p => entryByUser M1 p.1 "C")).sum /
      (([(3, 1), (2, 1)] : List (Int × ℝ)).length : ℚ) :=
  score_is_unweighted_neighbor_mean 1 M1 df1 [(3, 1), (2, 1)]
    [("C", "gC", 0), ("B", "gB", 0)] (by decide) get_recommendations_M1
    ("C", "gC", 0) (by simp)

/-- C2: for a user present in the matrix, the recommendation list has at
most 10 entries and only contains movies whose matrix entry for that user
is 0 (never an already-rated movie). -/
theorem recommendations_unseen_and_le_ten (u : Int) (M : UIMatrix)
    (df : List DfRow) (sims : List (Int × ℝ))
    (recs : List (String × String × ℚ)) (hu : u ∈ M.users)
    (hnd : M.titles.Nodup)
    (hok : get_recommendations u M df = .ok sims recs) :
    recs.length ≤ 10 ∧ ∀ x ∈ recs, entryByUser M u x.1 = 0 := by
  obtain ⟨hsims, hg⟩ := get_recommendations_ok_elim hok
  have hproj := attachGenres_proj hg
  constructor
  · have hlen := congrArg List.length hproj
    rw [List.length_map] at hlen
    rw [hlen]
    exact List.length_take_le 10 _
  · intro x hx
    have hmem : (x.1, x.2.2) ∈ topRecommendations M u := by
      rw [← hproj]
      exact List.mem_map_of_mem _ hx
    obtain ⟨j, hj, hxx⟩ := mem_topRecommendations hmem
    obtain ⟨hjlen, hzero⟩ := mem_unseenIdx.mp hj
    have ht : x.1 = M.titles.getD j "" := congrArg Prod.fst hxx
    rw [ht, entryByUser_getD hnd hjlen]
    exact hzero

/-- C2 witness: user 1 of `M1` gets 2 ≤ 10 recommendations, and the
recommended movie "C" has matrix entry 0 for user 1. -/
theorem recommendations_unseen_and_le_ten_witness :
    ([("C", "gC", 0), ("B", "gB", 0)] : List (String × String × ℚ)).length ≤ 10 ∧
    entryByUser M1 1 "C" = 0 :=
  ⟨(recommendations_unseen_and_le_ten 1 M1 df1 [(3, 1), (2, 1)]
      [("C", "gC", 0), ("B", "gB", 0)] (by decide) (by decide)
      get_recommendations_M1).1,
    (recommendations_unseen_and_le_ten 1 M1 df1 [(3, 1), (2, 1)]
      [("C", "gC", 0), ("B", "gB", 0)] (by decide) (by decide)
      get_recommendations_M1).2 ("C", "gC", 0) (by simp)⟩

/-- C6 (amended): zero similar users remain exactly when the target is the
only user of the matrix, and then (and only then) `get_recommendations`
terminates with the informational empty `Could not find any similar users.`
result, which is not an error and produces no recommendations.  A user
whose every neighbor has an all-zero rating row is NOT such a case: the
neighbors survive with similarity 0, and any recommendations the call
returns all carry score 0 (rather than the list being empty). -/
theorem empty_neighborhood_iff_sole_user (M : UIMatrix) (u : Int)
    (df : List DfRow) (hlen : M.rows.length = M.users.length)
    (hnd : M.users.Nodup) (hu : u ∈ M.users) :
    (similarUsers M u = [] ↔ M.users = [u]) ∧
    (get_recommendations u M df = .emptyNeighborhood ↔ M.users = [u]) ∧
    ((∀ v ∈ M.users, v ≠ u → rowOf M v = List.replicate M.titles.length 0) →
      ∀ sims recs, get_recommendations u M df = .ok sims recs →
        ∀ x ∈ recs, x.2.2 = 0) := by
  have h1 : similarUsers M u = [] ↔ M.users = [u] := by
    constructor
    · intro hempty
      by_contra hne
      have hex : ∃ v ∈ M.users, v ≠ u := by
        by_contra hall
        push_neg at hall
        exact hne (nodup_all_eq hnd hu hall)
      obtain ⟨v, hv, hvne⟩ := hex
      obtain ⟨s, hmem⟩ := mem_simSeries_of_user hlen hv
      have hfmem : (v, s) ∈
          (sortValuesDesc (simSeries M u)).filter (fun r => decide (r.1 ≠ u)) :=
        List.mem_filter.mpr ⟨mem_sortValuesDesc.mpr hmem, by simpa using hvne⟩
      unfold similarUsers at hempty
      rcases List.take_eq_nil_iff.mp hempty with h | h
      · simp at h
      · rw [h] at hfmem
        simp at hfmem
    · intro h
      have hrow : ∃ r, M.rows = [r] := by
        apply List.length_eq_one.mp
        rw [hlen, h]
        rfl
      obtain ⟨r, hr⟩ := hrow
      unfold similarUsers sortValuesDesc simSeries
      rw [h, hr]
      simp [List.insertionSort, List.orderedInsert]
  refine ⟨h1, ?_, ?_⟩
  · constructor
    · intro h
      unfold get_recommendations at h
      simp only [hu, not_true_eq_false, if_false] at h
      by_cases hs : similarUsers M u = []
      · exact h1.mp hs
      · simp only [hs, if_false] at h
        cases hg : attachGenres df (topRecommendations M u) with
        | none => rw [hg] at h; exact absurd h (by simp)
        | some out => rw [hg] at h; exact absurd h (by simp)
    · intro h
      unfold get_recommendations
      simp only [hu, not_true_eq_false, if_false]
      rw [if_pos (h1.mpr h)]
  · intro hzero sims recs hok x hx
    obtain ⟨hsims, hg⟩ := get_recommendations_ok_elim hok
    have hproj := attachGenres_proj hg
    have hmem : (x.1, x.2.2) ∈ topRecommendations M u := by
      rw [← hproj]
      exact List.mem_map_of_mem _ hx
    obtain ⟨j, hj, hxx⟩ := mem_topRecommendations hmem
    have hsc := congrArg Prod.snd hxx
    simp only at hsc
    rw [hsc]
    have hnum : ((((similarUsers M u).map (fun p => rowOf M p.1)).map
        (fun r => r.getD j 0)).sum : ℚ) = 0 := by
      apply List.sum_eq_zero
      intro y hy
      rw [List.map_map] at hy
      obtain ⟨p, hp, hyp⟩ := List.mem_map.mp hy
      obtain ⟨hpu, hpne⟩ := mem_similarUsers_fst hp
      rw [← hyp]
      simp only [Function.comp]
      rw [hzero p.1 hpu hpne]
      exact getD_replicate_zero _ _
    rw [hnum, zero_div]

/-- C6 counterexample: in `M2` user 1's only neighbor (user 2) has an
all-zero rating row, yet the call returns ONE recommendation — movie "B"
with score 0 — not an empty recommendation list as the claim states. -/
theorem all_zero_neighbors_nonempty_cex :
    get_recommendations 1 M2 df2 = .ok [(2, 0)] [("B", "gB", 0)] ∧
    ([("B", "gB", (0 : ℚ))] : List (String × String × ℚ)) ≠ [] :=
  ⟨get_recommendations_M2, by simp⟩

/-- C6 witness: the sole user of `M3` gets the informational empty result;
user 1 of `M2` (whose one neighbor rated nothing) does not, and the
recommendation it does get, movie "B", carries score 0. -/
theorem empty_neighborhood_iff_sole_user_witness :
    get_recommendations 7 M3 [] = RecResult.emptyNeighborhood ∧
    get_recommendations 1 M2 df2 ≠ RecResult.emptyNeighborhood ∧
    (("B", "gB", (0 : ℚ)) : String × String × ℚ).2.2 = 0 := by
  refine ⟨?_, ?_, ?_⟩
  · exact ((empty_neighborhood_iff_sole_user M3 7 [] (by decide) (by decide)
      (by decide)).2.1).mpr (by decide)
  · intro h
    have := ((empty_neighborhood_iff_sole_user M2 1 df2 (by decide) (by decide)
      (by decide)).2.1).mp h
    simp [M2] at this
  · exact (empty_neighborhood_iff_sole_user M2 1 df2 (by decide) (by decide)
      (by decide)).2.2 (by decide) [(2, 0)] [("B", "gB", 0)]
      get_recommendations_M2 ("B", "gB", 0) (by simp)

/-- C5 (amended): the query loop accepts integer input or the literal exit
keyword; a non-integer, non-exit input line is reported as invalid input
and the loop re-prompts without terminating; the case-insensitive exit
keyword terminates the loop cleanly.  But at end-of-input the loop does NOT
terminate: `input()` raises `EOFError`, a subclass of `Exception`, so the
generic handler swallows it and the loop spins, re-reporting it forever. -/
theorem query_loop_behaviour (M : UIMatrix) (df : List DfRow) (s : String)
    (rest : List String) (n : ℕ) :
    (strLower s = "exit" → runLoop M df (n + 1) (s :: rest) = ([], true)) ∧
    (strLower s ≠ "exit" → parsePyInt s = none →
      runLoop M df (n + 1) (s :: rest) =
        (LoopEvent.invalidInput :: (runLoop M df n rest).1,
          (runLoop M df n rest).2)) ∧
    ¬ ∃ m, (runLoop M df m []).2 = true := by
  refine ⟨?_, ?_, ?_⟩
  · intro h
    simp [runLoop, h]
  · intro h hp
    simp [runLoop, h, hp]
  · rintro ⟨m, hm⟩
    rw [runLoop_nil] at hm
    simp at hm

/-- C5 counterexample: run with no pending input at all (immediate
end-of-input), the loop never reaches its clean termination, contradicting
the claim that it terminates cleanly on end-of-input. -/
theorem query_loop_eof_cex : ¬ ∃ m, (runLoop M1 df1 m []).2 = true := by
  rintro ⟨m, hm⟩
  rw [runLoop_nil] at hm
  simp at hm

/-- C5 witness: `"EXIT"` (case-insensitive) terminates the loop cleanly;
the non-integer line `"abc"` is reported invalid and the loop goes on. -/
theorem query_loop_behaviour_witness :
    runLoop M1 df1 1 ["EXIT"] = ([], true) ∧
    runLoop M1 df1 1 ["abc"] = ([LoopEvent.invalidInput], false) := by
  constructor
  · exact (query_loop_behaviour M1 df1 "EXIT" [] 0).1 (by decide)
  · have h := (query_loop_behaviour M1 df1 "abc" [] 0).2.1 (by decide) (by decide)
    simpa [runLoop] using h
